import Mathlib

/-!
# Verification of the BaoAgent STT/TTS worker service

A shallow embedding of `baoagent_service.py` (and the codec shared with
`baoagent_client.py`): the warmup state machine, the transcribe/tts handlers,
the command dispatcher of `process_command`, the `main` read loop, and the
base64 audio transport codec.

External effects (subprocess invocations, temporary-file creation/deletion,
reading the synthesized wav file) are made explicit: each subprocess call is
an oracle value of type `RunOutcome` supplied through `Env`, and each handler
returns, next to its result, the list of file/invocation `Event`s it performed,
in program order.
-/

namespace BaoAgent

/-- Outcome of one `subprocess.run` invocation of an external tool:
the process completed with an exit code and captured stdout (already split
into lines, as `result.stdout.strip().split('\n')` does), or the call raised
`TimeoutExpired`, or it raised some other exception. -/
inductive RunOutcome where
  | completed (exitCode : Nat) (stdoutLines : List String)
  | timedOut
  | raised
  deriving DecidableEq, Repr

/-- The two per-model warmup flags of `BaoAgentService.__init__`. -/
structure ServiceState where
  stt_warmed_up : Bool
  tts_warmed_up : Bool
  deriving DecidableEq, Repr

/-- `BaoAgentService.__init__`: both flags start false. -/
def initState : ServiceState := ⟨false, false⟩

/-- Observable side effects of a handler, in program order: temporary-file
creation (`tempfile.NamedTemporaryFile`), deletion (`os.unlink`), and external
tool invocation (`subprocess.run`), tagged by call site. -/
inductive Event where
  | createTmp (name : String)
  | deleteTmp (name : String)
  | invokeTool (site : String)
  deriving DecidableEq, Repr, BEq

/-- Oracle for the external world during one command: the outcome of each
possible subprocess call, and the samples `sf.read` recovers from the tts
output file. -/
structure Env where
  sttWarmup : RunOutcome
  sttInference : RunOutcome
  ttsWarmup : RunOutcome
  ttsInference : RunOutcome
  ttsReadSamples : List Int

/-! ## Base64 audio transport codec

`base64.b64encode` / `base64.b64decode` over byte buffers (bytes as `Nat`
values below 256), plus the little-endian int16 packing of
`numpy.ndarray.tobytes` / `np.frombuffer(..., dtype=np.int16)`. -/

/-- The standard base64 alphabet, in value order. -/
def B64_CHARS : List Char :=
  "ABCDEFGHIJKLMNOPQRSTUVWXYZabcdefghijklmnopqrstuvwxyz0123456789+/".toList

/-- Character for a sextet value (defined for values below 64). -/
def sextetChar (n : Nat) : Char := B64_CHARS.getD n 'A'

/-- Sextet value of a base64 alphabet character; `none` off the alphabet. -/
def sextetVal (c : Char) : Option Nat := B64_CHARS.indexOf? c

/-- `base64.b64encode`: 3 bytes to 4 characters, `=`-padded tail. -/
def b64encode : List Nat → List Char
  | a :: b :: c :: rest =>
      sextetChar (a / 4) :: sextetChar (a % 4 * 16 + b / 16) ::
      sextetChar (b % 16 * 4 + c / 64) :: sextetChar (c % 64) :: b64encode rest
  | [a, b] =>
      [sextetChar (a / 4), sextetChar (a % 4 * 16 + b / 16), sextetChar (b % 16 * 4), '=']
  | [a] => [sextetChar (a / 4), sextetChar (a % 4 * 16), '=', '=']
  | [] => []

/-- `base64.b64decode`: 4 characters to 3 bytes, honouring `=` padding (only
at the very end); a length not a multiple of 4, or a character off the
alphabet, fails (Python raises `binascii.Error`). Like Python, dangling bits
under the padding are dropped, not validated. -/
def b64decode : List Char → Option (List Nat)
  | [] => some []
  | c1 :: c2 :: c3 :: c4 :: rest =>
    match sextetVal c1, sextetVal c2 with
    | some s1, some s2 =>
      if c3 = '=' then
        if c4 = '=' then
          if rest = [] then some [s1 * 4 + s2 / 16] else none
        else none
      else
        match sextetVal c3 with
        | some s3 =>
          if c4 = '=' then
            if rest = [] then some [s1 * 4 + s2 / 16, s2 % 16 * 16 + s3 / 4] else none
          else
            match sextetVal c4, b64decode rest with
            | some s4, some tail =>
                some ((s1 * 4 + s2 / 16) :: (s2 % 16 * 16 + s3 / 4) :: (s3 % 4 * 64 + s4) :: tail)
            | _, _ => none
        | none => none
    | _, _ => none
  | _ => none

/-- `numpy.ndarray.tobytes` on an int16 array: little-endian two's-complement
byte pairs. -/
def int16ToBytes : List Int → List Nat
  | [] => []
  | s :: rest => (s % 65536).toNat % 256 :: (s % 65536).toNat / 256 :: int16ToBytes rest

/-- Sign-reading of a 16-bit unsigned value, as `np.int16` views it. -/
def toSigned16 (u : Nat) : Int := if u < 32768 then (u : Int) else (u : Int) - 65536

/-- `np.frombuffer(audio_bytes, dtype=np.int16)`: pairs of bytes, little
endian; an odd byte count raises `ValueError` (`none`). -/
def bytesToInt16 : List Nat → Option (List Int)
  | [] => some []
  | lo :: hi :: rest => (bytesToInt16 rest).map fun t => toSigned16 (lo + 256 * hi) :: t
  | [_] => none

/-! ## Warmup state machine -/

/-- `BaoAgentService.warmup_stt`: if the flag is set, return `True` at once.
Otherwise write a dummy silence wav, run the STT tool (no `check=True`: a
completed run sets the flag whatever its exit code), unlink the dummy file and
flip the flag; any exception (timeout included) is caught after the unlink
line, so it returns `False` leaving the flag and the dummy file behind. -/
def warmup_stt (out : RunOutcome) (st : ServiceState) : ServiceState × Bool × List Event :=
  if st.stt_warmed_up then (st, true, [])
  else
    match out with
    | .completed _ _ =>
        ({ st with stt_warmed_up := true }, true,
         [.createTmp "stt_warmup.wav", .invokeTool "stt_warmup", .deleteTmp "stt_warmup.wav"])
    | .timedOut => (st, false, [.createTmp "stt_warmup.wav", .invokeTool "stt_warmup"])
    | .raised => (st, false, [.createTmp "stt_warmup.wav", .invokeTool "stt_warmup"])

/-- `BaoAgentService.warmup_tts`: if the flag is set, return `True` at once.
Otherwise write a dummy text file and reserve an output wav, run the TTS tool
with `check=True` (non-zero exit raises `CalledProcessError`); only a zero-exit
run reaches the two unlinks and the flag flip; every failure (non-zero exit,
timeout, other exception) returns `False` leaving the flag and both files. -/
def warmup_tts (out : RunOutcome) (st : ServiceState) : ServiceState × Bool × List Event :=
  if st.tts_warmed_up then (st, true, [])
  else
    let pre : List Event :=
      [.createTmp "tts_warmup.txt", .createTmp "tts_warmup.wav", .invokeTool "tts_warmup"]
    match out with
    | .completed 0 _ =>
        ({ st with tts_warmed_up := true }, true,
         pre ++ [.deleteTmp "tts_warmup.txt", .deleteTmp "tts_warmup.wav"])
    | .completed (_ + 1) _ => (st, false, pre)
    | .timedOut => (st, false, pre)
    | .raised => (st, false, pre)

/-! ## Invocation and output parsing -/

/-- The diagnostic-line filter of `transcribe_audio`: informational `Info:`
prefixes, lines starting with a JSON brace, or lines containing a
model-metadata keyword (substring match, as Python's `in`). -/
def isDiagLine (line : String) : Bool :=
  line.startsWith "Info:" || line.startsWith "\x7b" || line.startsWith "\x7d" ||
  line.containsSubstr "card" || line.containsSubstr "dim" ||
  line.containsSubstr "num_heads" || line.containsSubstr "model_id" ||
  line.containsSubstr "tokenizer" || line.containsSubstr "steps" ||
  line.containsSubstr "token per sec"

/-- The `for line in reversed(stdout_lines)` loop body of `transcribe_audio`,
kept with its (redundant) second guard: skip diagnostic lines; break on the
first non-empty survivor; fall through to `""`. -/
def extractLoop : List String → String
  | [] => ""
  | l :: rest =>
    let line := l.trim
    if isDiagLine line then extractLoop rest
    else if line ≠ "" && !line.startsWith "Info:" && !line.startsWith "\x7b" then line
    else extractLoop rest

/-- Transcript extraction of `transcribe_audio`: scan the captured stdout
lines from the end backward. -/
def extractTranscription (stdoutLines : List String) : String :=
  extractLoop stdoutLines.reverse

/-- Modelled from the spec's words (§4.4), for comparison with
`extractTranscription`: the first line, scanning from the end, that after
stripping is neither a diagnostic line nor empty; empty string if none. -/
def extractTranscriptionSpec (stdoutLines : List String) : String :=
  (((stdoutLines.reverse).map String.trim).filter
    (fun l => !isDiagLine l && l ≠ "")).headD ""

/-- `BaoAgentService.transcribe_audio`: gate on STT warmup (a failed warmup
returns `None` at once), then write the audio to a temporary wav, run the STT
tool with `check=True`, parse stdout on success, return `None` on any failure;
the `finally` clause unlinks the wav on every path. -/
def transcribe_audio (env : Env) (st : ServiceState) :
    ServiceState × Option String × List Event :=
  match warmup_stt env.sttWarmup st with
  | (st1, false, tr1) => (st1, none, tr1)
  | (st1, true, tr1) =>
    let pre : List Event := [.createTmp "transcribe.wav", .invokeTool "stt_inference"]
    let post : List Event := [.deleteTmp "transcribe.wav"]
    match env.sttInference with
    | .completed 0 lines => (st1, some (extractTranscription lines), tr1 ++ pre ++ post)
    | .completed (_ + 1) _ => (st1, none, tr1 ++ pre ++ post)
    | .timedOut => (st1, none, tr1 ++ pre ++ post)
    | .raised => (st1, none, tr1 ++ pre ++ post)

/-- `BaoAgentService.text_to_speech`: gate on TTS warmup (a failed warmup
returns `None` at once), then write the text to a temporary file, reserve an
output wav, run the TTS tool with `check=True`, read the generated samples on
success, `None` on any failure; the `finally` clause unlinks both files on
every path. The text itself only flows into the temporary file. -/
def text_to_speech (env : Env) (st : ServiceState) (text : String) :
    ServiceState × Option (List Int) × List Event :=
  match warmup_tts env.ttsWarmup st with
  | (st1, false, tr1) => (st1, none, tr1)
  | (st1, true, tr1) =>
    let _ := text
    let pre : List Event :=
      [.createTmp "tts_input.txt", .createTmp "tts_output.wav", .invokeTool "tts_inference"]
    let post : List Event := [.deleteTmp "tts_input.txt", .deleteTmp "tts_output.wav"]
    match env.ttsInference with
    | .completed 0 _ => (st1, some env.ttsReadSamples, tr1 ++ pre ++ post)
    | .completed (_ + 1) _ => (st1, none, tr1 ++ pre ++ post)
    | .timedOut => (st1, none, tr1 ++ pre ++ post)
    | .raised => (st1, none, tr1 ++ pre ++ post)

/-! ## Command dispatcher -/

/-- Result of `json.loads` on the raw command line, at the granularity
`process_command` inspects it: the parse raised (`malformed`), the value is
not an object so `command.get` raises `AttributeError` (`nonObject`), or an
object with the four fields the handlers read, each possibly absent. -/
inductive Decoded where
  | malformed
  | nonObject
  | obj (typ : Option String) (audio_data : Option String)
        (sample_rate : Option Int) (text : Option String)
  deriving DecidableEq, Repr

/-- The response object `process_command` serializes with `json.dumps`.
`tts_result_ok` carries `success:true`, `tts_result_err` carries
`success:false`. -/
inductive Response where
  | transcription_result (text : Option String) (success : Bool)
  | tts_result_ok (audio_data : String) (sample_rate : Nat)
  | tts_result_err (error : String)
  | statusResp (stt_warmed_up : Bool) (tts_warmed_up : Bool)
  | errorResp (error : String)
  deriving DecidableEq, Repr, BEq

/-- The `tts` branch's envelope around the handler result: base64 of the
sample bytes with the fixed 24000 rate on success, the fixed error string on
failure. -/
def ttsEnvelope (res : Option (List Int)) : Response :=
  match res with
  | some samples => .tts_result_ok (String.mk (b64encode (int16ToBytes samples))) 24000
  | none => .tts_result_err "TTS generation failed"

/-- `BaoAgentService.process_command`. Returns the new state, the value the
Python function returns (`none` models Python's implicit `return None`, which
happens exactly when a `transcribe` command has a missing or empty
`audio_data`), and the events performed. Exceptions inside the `try` (JSON
decode failure, `.get` on a non-object, base64 or buffer errors) fold into the
`error` envelope; the exception messages are abbreviated here. -/
def process_command (env : Env) (st : ServiceState) (dec : Decoded) :
    ServiceState × Option Response × List Event :=
  match dec with
  | .malformed => (st, some (.errorResp "Expecting value"), [])
  | .nonObject => (st, some (.errorResp "object has no attribute get"), [])
  | .obj typ audio_data _sample_rate text =>
    match typ with
    | none => (st, some (.errorResp "Unknown command type: None"), [])
    | some t =>
      if t = "transcribe" then
        let audio_b64 := audio_data.getD ""
        if audio_b64 = "" then (st, none, [])
        else
          match b64decode audio_b64.toList with
          | none => (st, some (.errorResp "Invalid base64-encoded string"), [])
          | some bytes =>
            match bytesToInt16 bytes with
            | none => (st, some (.errorResp "buffer size must be a multiple of element size"), [])
            | some _samples =>
              let (st1, transcription, tr) := transcribe_audio env st
              (st1, some (.transcription_result transcription transcription.isSome), tr)
      else if t = "tts" then
        let (st1, res, tr) := text_to_speech env st (text.getD "")
        (st1, some (ttsEnvelope res), tr)
      else if t = "status" then
        (st, some (.statusResp st.stt_warmed_up st.tts_warmed_up), [])
      else
        (st, some (.errorResp ("Unknown command type: " ++ t)), [])

/-! ## Main loop -/

/-- One stdin line as the loop classifies it: the (case-insensitive) literal
`quit`, or anything else together with how `json.loads` reads it. -/
inductive Input where
  | quit
  | cmd (dec : Decoded)
  deriving DecidableEq, Repr

/-- One line written to stdout by `print(result)`: the `json.dumps` output of
a response object, or the literal text `None` when `process_command` returned
Python's `None`. -/
inductive OutLine where
  | jsonLine (r : Response)
  | noneLine
  deriving DecidableEq, Repr

/-- Result of one iteration of `main`'s `while True` loop. -/
structure StepResult where
  state : ServiceState
  output : Option OutLine
  keepRunning : Bool
  trace : List Event
  deriving DecidableEq, Repr

/-- One iteration of `main`'s read loop: `quit` breaks out with no response
line; any other line goes through `process_command` and its result is printed
— exactly one output line, the literal `None` included. -/
def service_step (env : Env) (st : ServiceState) (inp : Input) : StepResult :=
  match inp with
  | .quit => ⟨st, none, false, []⟩
  | .cmd dec =>
    let (st1, res, tr) := process_command env st dec
    ⟨st1, some (match res with | some r => OutLine.jsonLine r | none => OutLine.noneLine),
     true, tr⟩

/-- The startup sequence of `main` before the read loop: fresh state, then the
eager `warmup_stt()` and `warmup_tts()` calls (the `debug_tts_models` call
touches no state). -/
def service_startup (sttOut ttsOut : RunOutcome) : ServiceState :=
  (warmup_tts ttsOut (warmup_stt sttOut initState).1).1

/-- An STT warmup attempt flips the flag exactly when the subprocess call
completes without an exception — the exit code is not checked. -/
def sttWarmupOk : RunOutcome → Bool
  | .completed _ _ => true
  | _ => false

/-- A TTS warmup attempt flips the flag exactly when the subprocess completes
with exit code zero. -/
def ttsWarmupOk : RunOutcome → Bool
  | .completed 0 _ => true
  | _ => false

/-- A throwaway inference "succeeds" in the spec's sense: the tool ran to
completion and exited zero. -/
def inferenceSucceeded : RunOutcome → Bool
  | .completed 0 _ => true
  | _ => false

/-- Leak-freedom of an event trace: every temporary file created is deleted. -/
def leakFree (tr : List Event) : Prop :=
  ∀ f, Event.createTmp f ∈ tr → Event.deleteTmp f ∈ tr

/-- A `transcribe` command whose `audio_data` is missing or the empty string —
the one shape on which the `transcribe` branch falls through and the handler
returns Python's `None`. -/
def isTranscribeNoAudio : Decoded → Bool
  | .obj (some t) ad _ _ => t == "transcribe" && ad.getD "" == ""
  | _ => false

/-- The command kind the dispatcher's `==` chain sees; anything without a
`type` string is lumped as unrecognizable. -/
def cmdKind : Decoded → String
  | .obj (some t) _ _ _ => t
  | _ => "(no type)"

/-- Response-type discipline of the protocol: the matching result type for a
recognized command (`transcribe` may also answer `error` when its payload
fails to decode), the `error` envelope for everything else. -/
def respTypeMatches (dec : Decoded) (r : Response) : Bool :=
  if cmdKind dec = "transcribe" then
    match r with
    | .transcription_result _ _ => true
    | .errorResp _ => true
    | _ => false
  else if cmdKind dec = "tts" then
    match r with
    | .tts_result_ok _ _ => true
    | .tts_result_err _ => true
    | _ => false
  else if cmdKind dec = "status" then
    match r with
    | .statusResp _ _ => true
    | _ => false
  else
    match r with
    | .errorResp _ => true
    | _ => false

/-- Is the response a `tts_result` with `success:true`? -/
def isTtsOkResp : Response → Bool
  | .tts_result_ok _ _ => true
  | _ => false

/-- Is the response a `tts_result` with `success:false`? -/
def isTtsErrResp : Response → Bool
  | .tts_result_err _ => true
  | _ => false

/-! ## Concrete worlds used by counterexamples and witnesses -/

/-- A world where every external call succeeds: warmups complete with exit
code 0, the STT tool prints a diagnostic line then a transcript, the TTS tool
synthesizes two samples. -/
def envAllOk : Env :=
  { sttWarmup := .completed 0 ["warm"]
    sttInference := .completed 0 ["Info: loading", "hello world"]
    ttsWarmup := .completed 0 []
    ttsInference := .completed 0 []
    ttsReadSamples := [100, -3] }

/-- A world where the STT warmup raises and the TTS warmup times out, while
the real inference tools would have worked. -/
def envWarmupFail : Env :=
  { sttWarmup := .raised
    sttInference := .completed 0 ["hello world"]
    ttsWarmup := .timedOut
    ttsInference := .completed 0 []
    ttsReadSamples := [100, -3] }

/-- A world where everything succeeds but the synthesized wav decodes to zero
samples. -/
def envEmptyAudio : Env :=
  { sttWarmup := .completed 0 []
    sttInference := .completed 0 []
    ttsWarmup := .completed 0 []
    ttsInference := .completed 0 []
    ttsReadSamples := [] }

/-! ## Codec lemmas -/

/-- Looking up the character of a sextet value below 64 recovers the value:
the base64 alphabet has no duplicate characters. -/
theorem sextetVal_sextetChar {n : Nat} (h : n < 64) : sextetVal (sextetChar n) = some n := by
  have key : ∀ m : Fin 64, sextetVal (sextetChar m.val) = some m.val := by decide
  exact key ⟨n, h⟩

/-- No alphabet character is the padding character. -/
theorem sextetChar_ne_pad {n : Nat} (h : n < 64) : sextetChar n ≠ '=' := by
  have key : ∀ m : Fin 64, sextetChar m.val ≠ '=' := by decide
  exact key ⟨n, h⟩

/-- C4 (confirmed): decoding the base64 encoding of an arbitrary byte buffer
— empty and odd-length buffers included — reproduces the buffer exactly; the
codec is a pure byte transport, so no resampling, channel conversion or
clipping can occur. -/
theorem b64_roundtrip (bs : List Nat) (h : ∀ b ∈ bs, b < 256) :
    b64decode (b64encode bs) = some bs := by
  induction bs using b64encode.induct with
  | case1 a b c rest ih =>
    have ha : a < 256 := h a (by simp)
    have hb : b < 256 := h b (by simp)
    have hc : c < 256 := h c (by simp)
    have hrest : ∀ x ∈ rest, x < 256 := fun x hx => h x (by simp [hx])
    have h1 : a / 4 < 64 := by omega
    have h2 : a % 4 * 16 + b / 16 < 64 := by omega
    have h3 : b % 16 * 4 + c / 64 < 64 := by omega
    have h4 : c % 64 < 64 := by omega
    rw [b64encode, b64decode]
    rw [sextetVal_sextetChar h1, sextetVal_sextetChar h2, sextetVal_sextetChar h3,
        sextetVal_sextetChar h4, ih hrest]
    simp [sextetChar_ne_pad h3, sextetChar_ne_pad h4]
    refine ⟨by omega, by omega, by omega⟩
  | case2 a b =>
    have ha : a < 256 := h a (by simp)
    have hb : b < 256 := h b (by simp)
    have h1 : a / 4 < 64 := by omega
    have h2 : a % 4 * 16 + b / 16 < 64 := by omega
    have h3 : b % 16 * 4 < 64 := by omega
    rw [b64encode, b64decode]
    rw [sextetVal_sextetChar h1, sextetVal_sextetChar h2, sextetVal_sextetChar h3]
    simp [sextetChar_ne_pad h3]
    constructor <;> omega
  | case3 a =>
    have ha : a < 256 := h a (by simp)
    have h1 : a / 4 < 64 := by omega
    have h2 : a % 4 * 16 < 64 := by omega
    rw [b64encode, b64decode]
    rw [sextetVal_sextetChar h1, sextetVal_sextetChar h2]
    simp
    omega
  | case4 => rfl

/-- Witness for C4 at an even-length and prefix-odd concrete buffer. -/
theorem b64_roundtrip_witness :
    (∀ b ∈ [77, 200, 3, 0], b < 256) ∧
      b64decode (b64encode [77, 200, 3, 0]) = some [77, 200, 3, 0] :=
  ⟨by decide, b64_roundtrip [77, 200, 3, 0] (by decide)⟩

/-! ## Transcript parsing -/

/-- Unrolled form of the scanning loop: it returns the head of the filtered
trimmed line list, scanning in the given order. -/
theorem extractLoop_eq (ls : List String) :
    extractLoop ls =
      ((ls.map String.trim).filter (fun l => !isDiagLine l && l ≠ "")).headD "" := by
  induction ls with
  | nil => rfl
  | cons l rest ih =>
    simp only [extractLoop, List.map_cons, List.filter_cons]
    by_cases hd : isDiagLine l.trim
    · simp [hd, ih]
    · by_cases he : l.trim = ""
      · simp [hd, he, ih]
      · have hInfo : l.trim.startsWith "Info:" = false := by
          simp only [isDiagLine, Bool.or_eq_true] at hd
          by_contra hx
          exact hd (by simp_all)
        have hBrace : l.trim.startsWith "\x7b" = false := by
          simp only [isDiagLine, Bool.or_eq_true] at hd
          by_contra hx
          exact hd (by simp_all)
        simp [hd, he, hInfo, hBrace]

/-- C7 (confirmed): the transcription parser scans the captured output lines
from the end backward, skips every line matching the diagnostic patterns
(`Info:` prefixes, lines starting with a JSON brace, lines containing a
model-metadata keyword), and returns the first remaining non-empty line, or
the empty string if no line remains — it equals the spec-side description
`extractTranscriptionSpec`. -/
theorem transcript_extraction_spec (lines : List String) :
    extractTranscription lines = extractTranscriptionSpec lines :=
  extractLoop_eq lines.reverse

/-! ## Warmup state machine -/

/-- C2 counterexample: with the STT warmup subprocess completing with exit
code 1 — a failed throwaway inference — `warmup_stt` still sets the flag and
reports success, because the call has no exit-code check. -/
theorem stt_flag_set_on_failed_inference_cex :
    inferenceSucceeded (RunOutcome.completed 1 ["Traceback"]) = false ∧
    (warmup_stt (RunOutcome.completed 1 ["Traceback"]) initState).1.stt_warmed_up = true ∧
    (warmup_stt (RunOutcome.completed 1 ["Traceback"]) initState).2.1 = true :=
  ⟨rfl, rfl, rfl⟩

/-- C2 (corrected): `warmup_tts` sets its flag exactly when the throwaway
inference exits zero, but `warmup_stt` sets its flag exactly when the
subprocess call returns without an exception, the exit code notwithstanding;
a warmup that raises or times out leaves its flag false, each warmup returns
the resulting flag value, and neither touches the other model's flag. -/
theorem warmup_flag_semantics (o : RunOutcome) (st : ServiceState) :
    (warmup_stt o st).1.stt_warmed_up = (st.stt_warmed_up || sttWarmupOk o) ∧
    (warmup_stt o st).1.tts_warmed_up = st.tts_warmed_up ∧
    (warmup_stt o st).2.1 = (st.stt_warmed_up || sttWarmupOk o) ∧
    (warmup_tts o st).1.tts_warmed_up = (st.tts_warmed_up || ttsWarmupOk o) ∧
    (warmup_tts o st).1.stt_warmed_up = st.stt_warmed_up ∧
    (warmup_tts o st).2.1 = (st.tts_warmed_up || ttsWarmupOk o) := by
  rcases st with ⟨s, t⟩
  cases s <;> cases t <;> rcases o with ⟨k, ls⟩ | _ | _ <;> (try cases k) <;>
    simp [warmup_stt, warmup_tts, sttWarmupOk, ttsWarmupOk]

/-- The startup warmups of `main` leave exactly the per-warmup outcome in
each flag. -/
theorem startup_flags (o1 o2 : RunOutcome) :
    service_startup o1 o2 = ⟨sttWarmupOk o1, ttsWarmupOk o2⟩ := by
  rcases o1 with ⟨k1, ls1⟩ | _ | _ <;> rcases o2 with ⟨k2, ls2⟩ | _ | _ <;>
    first
      | rfl
      | (cases k2 <;> rfl)

/-- C5 counterexample: on a freshly started worker whose eager startup
warmups both succeeded, a `status` command processed before any other command
reports both flags true, not false. -/
theorem status_true_after_successful_startup_cex :
    (process_command envAllOk
        (service_startup (.completed 0 []) (.completed 0 []))
        (.obj (some "status") none none none)).2.1
      = some (.statusResp true true) := rfl

/-- C5 (corrected): the constructor initializes both flags false, but `main`
eagerly warms both models before the read loop, so a `status` processed
before any command reports the startup warmup outcomes — false exactly for
the warmups that did not succeed, and `false/false` only when both failed. -/
theorem status_after_startup (o1 o2 : RunOutcome) (env : Env) :
    initState.stt_warmed_up = false ∧ initState.tts_warmed_up = false ∧
    process_command env (service_startup o1 o2)
        (.obj (some "status") none none none)
      = (service_startup o1 o2,
         some (.statusResp (sttWarmupOk o1) (ttsWarmupOk o2)), []) := by
  refine ⟨rfl, rfl, ?_⟩
  rw [startup_flags]
  rfl

/-! ## Warmup failure short-circuits the command (C1) -/

/-- A failing STT warmup on a cold state returns `False` leaving the dummy
wav behind. -/
theorem warmup_stt_fails (o : RunOutcome) (st : ServiceState)
    (h1 : st.stt_warmed_up = false) (h2 : sttWarmupOk o = false) :
    warmup_stt o st
      = (st, false, [.createTmp "stt_warmup.wav", .invokeTool "stt_warmup"]) := by
  rcases o with ⟨k, ls⟩ | _ | _
  · simp [sttWarmupOk] at h2
  · simp [warmup_stt, h1]
  · simp [warmup_stt, h1]

/-- A failing TTS warmup on a cold state returns `False` leaving both dummy
files behind. -/
theorem warmup_tts_fails (o : RunOutcome) (st : ServiceState)
    (h1 : st.tts_warmed_up = false) (h2 : ttsWarmupOk o = false) :
    warmup_tts o st
      = (st, false,
         [.createTmp "tts_warmup.txt", .createTmp "tts_warmup.wav",
          .invokeTool "tts_warmup"]) := by
  rcases o with ⟨k, ls⟩ | _ | _
  · cases k
    · simp [ttsWarmupOk] at h2
    · simp [warmup_tts, h1]
  · simp [warmup_tts, h1]
  · simp [warmup_tts, h1]

/-- C1 counterexample: on a cold worker whose warmups fail, a `transcribe`
command runs the warmup but never its real inference, and likewise for
`tts`; the failures are still reported as `success:false` envelopes. -/
theorem warmup_failure_proceeds_cex :
    (process_command envWarmupFail initState
        (.obj (some "transcribe") (some "AAA=") none none)).2.2.contains
      (Event.invokeTool "stt_warmup") = true ∧
    (process_command envWarmupFail initState
        (.obj (some "transcribe") (some "AAA=") none none)).2.2.contains
      (Event.invokeTool "stt_inference") = false ∧
    (process_command envWarmupFail initState
        (.obj (some "transcribe") (some "AAA=") none none)).2.1
      = some (.transcription_result none false) ∧
    (process_command envWarmupFail initState
        (.obj (some "tts") none none (some "Hello"))).2.2.contains
      (Event.invokeTool "tts_inference") = false ∧
    (process_command envWarmupFail initState
        (.obj (some "tts") none none (some "Hello"))).2.1
      = some (.tts_result_err "TTS generation failed") := by
  refine ⟨?_, ?_, ?_, ?_, ?_⟩ <;> rfl

/-- C1 (corrected): a `transcribe` or `tts` command that triggers a lazy
warmup whose warmup fails does NOT proceed to its real external-tool
invocation — the handler returns `None` straight after the failed warmup; the
failure is still reported through the normal response envelope with
`success:false` and the read loop keeps running. -/
theorem warmup_failure_short_circuits (env : Env) (st : ServiceState)
    (h1 : st.stt_warmed_up = false) (h2 : sttWarmupOk env.sttWarmup = false)
    (h3 : st.tts_warmed_up = false) (h4 : ttsWarmupOk env.ttsWarmup = false) :
    (transcribe_audio env st).2.1 = none ∧
    (transcribe_audio env st).2.2.contains (Event.invokeTool "stt_inference") = false ∧
    (transcribe_audio env st).2.2.contains (Event.invokeTool "stt_warmup") = true ∧
    (text_to_speech env st "Hello").2.1 = none ∧
    (text_to_speech env st "Hello").2.2.contains (Event.invokeTool "tts_inference") = false ∧
    (∀ ad bytes smp, b64decode ad.toList = some bytes → bytesToInt16 bytes = some smp →
      ad ≠ "" →
      (service_step env st (.cmd (.obj (some "transcribe") (some ad) none none))).output
        = some (.jsonLine (.transcription_result none false)) ∧
      (service_step env st
        (.cmd (.obj (some "transcribe") (some ad) none none))).keepRunning = true) ∧
    (∀ tx, (service_step env st (.cmd (.obj (some "tts") none none tx))).output
        = some (.jsonLine (.tts_result_err "TTS generation failed")) ∧
      (service_step env st (.cmd (.obj (some "tts") none none tx))).keepRunning = true) := by
  have hstt := warmup_stt_fails env.sttWarmup st h1 h2
  have htts := warmup_tts_fails env.ttsWarmup st h3 h4
  have hT : transcribe_audio env st
      = (st, none, [.createTmp "stt_warmup.wav", .invokeTool "stt_warmup"]) := by
    simp [transcribe_audio, hstt]
  have hS : ∀ tx, text_to_speech env st tx
      = (st, none,
         [.createTmp "tts_warmup.txt", .createTmp "tts_warmup.wav",
          .invokeTool "tts_warmup"]) := by
    intro tx
    simp [text_to_speech, htts]
  refine ⟨by simp [hT], by rw [hT]; rfl, by rw [hT]; rfl, by simp [hS],
    by rw [hS]; rfl, ?_, ?_⟩
  · intro ad bytes smp hb hsmp had
    simp only [String.toList] at hb
    constructor
    · simp [service_step, process_command, had, hb, hsmp, hT]
    · simp [service_step, process_command, had, hb, hsmp, hT]
  · intro tx
    constructor
    · simp [service_step, process_command, hS, ttsEnvelope]
    · simp [service_step, process_command, hS]

/-- Witness for C1 in the concrete failing world. -/
theorem warmup_failure_short_circuits_witness :
    (transcribe_audio envWarmupFail initState).2.1 = none ∧
    (transcribe_audio envWarmupFail initState).2.2.contains
      (Event.invokeTool "stt_inference") = false ∧
    (service_step envWarmupFail initState
        (.cmd (.obj (some "tts") none none (some "Hello")))).output
      = some (.jsonLine (.tts_result_err "TTS generation failed")) := by
  have h := warmup_failure_short_circuits envWarmupFail initState (by decide) (by decide)
    (by decide) (by decide)
  exact ⟨h.1, h.2.1, (h.2.2.2.2.2.2 (some "Hello")).1⟩

/-! ## Temporary-file accounting (C6) -/

/-- The empty trace leaks nothing. -/
theorem leakFree_nil : leakFree [] := by
  intro f hf
  simp at hf

/-- Leak-freedom is closed under trace concatenation. -/
theorem leakFree_append {t1 t2 : List Event} (h1 : leakFree t1) (h2 : leakFree t2) :
    leakFree (t1 ++ t2) := by
  intro f hf
  rcases List.mem_append.mp hf with h | h
  · exact List.mem_append.mpr (Or.inl (h1 f h))
  · exact List.mem_append.mpr (Or.inr (h2 f h))

/-- The create/invoke/delete trace of a successful scoped invocation leaks
nothing. -/
theorem leakFree_inv_trace (a b : String) :
    leakFree [.createTmp a, .invokeTool b, .deleteTmp a] := by
  intro f hf
  simp at hf ⊢
  simp [hf]

/-- The two-file create/invoke/delete trace of the synthesis path leaks
nothing. -/
theorem leakFree_pair_trace (a b c : String) :
    leakFree [.createTmp a, .createTmp b, .invokeTool c, .deleteTmp a, .deleteTmp b] := by
  intro f hf
  simp at hf ⊢
  tauto

/-- An STT warmup that is skipped or completes reports `True` and leaks no
file. -/
theorem warmup_stt_gate (o : RunOutcome) (st : ServiceState)
    (h : st.stt_warmed_up = true ∨ sttWarmupOk o = true) :
    (warmup_stt o st).2.1 = true ∧ leakFree (warmup_stt o st).2.2 := by
  by_cases hs : st.stt_warmed_up
  · refine ⟨by simp [warmup_stt, hs], ?_⟩
    simp only [warmup_stt, hs, if_true]
    exact leakFree_nil
  · rcases h with h | h
    · exact absurd h hs
    · rcases o with ⟨k, ls⟩ | _ | _ <;> simp [sttWarmupOk] at h
      refine ⟨by simp [warmup_stt, hs], ?_⟩
      simp only [warmup_stt, hs, if_false, Bool.false_eq_true]
      intro f hf
      simp at hf ⊢
      simp [hf]

/-- A TTS warmup that is skipped or exits zero reports `True` and leaks no
file. -/
theorem warmup_tts_gate (o : RunOutcome) (st : ServiceState)
    (h : st.tts_warmed_up = true ∨ ttsWarmupOk o = true) :
    (warmup_tts o st).2.1 = true ∧ leakFree (warmup_tts o st).2.2 := by
  by_cases hs : st.tts_warmed_up
  · refine ⟨by simp [warmup_tts, hs], ?_⟩
    simp only [warmup_tts, hs, if_true]
    exact leakFree_nil
  · rcases h with h | h
    · exact absurd h hs
    · rcases o with ⟨k, ls⟩ | _ | _
      · cases k
        · refine ⟨by simp [warmup_tts, hs], ?_⟩
          simp only [warmup_tts, hs, if_false, Bool.false_eq_true]
          intro f hf
          simp at hf ⊢
          tauto
        · simp [ttsWarmupOk] at h
      · simp [ttsWarmupOk] at h
      · simp [ttsWarmupOk] at h

/-- C6 counterexample: a `transcribe` command on a cold worker whose STT
warmup raises leaves the warmup's dummy wav created but never deleted. -/
theorem warmup_failure_leaks_tempfile_cex :
    (process_command envWarmupFail initState
        (.obj (some "transcribe") (some "AAA=") none none)).2.2.contains
      (Event.createTmp "stt_warmup.wav") = true ∧
    (process_command envWarmupFail initState
        (.obj (some "transcribe") (some "AAA=") none none)).2.2.contains
      (Event.deleteTmp "stt_warmup.wav") = false := by
  constructor <;> rfl

/-- C6 (corrected): after a `transcribe` or `tts` handler run whose triggered
warmup (if any) did not fail, every temporary file created for the call has
been deleted — the real invocation paths delete their files on every outcome
of the external tool; a failing warmup, however, leaks its own temporary
files, as the counterexample shows. -/
theorem no_temp_leak_without_warmup_failure (env : Env) (st : ServiceState) (tx : String)
    (h1 : st.stt_warmed_up = true ∨ sttWarmupOk env.sttWarmup = true)
    (h2 : st.tts_warmed_up = true ∨ ttsWarmupOk env.ttsWarmup = true) :
    leakFree (transcribe_audio env st).2.2 ∧ leakFree (text_to_speech env st tx).2.2 := by
  obtain ⟨hg1, hl1⟩ := warmup_stt_gate env.sttWarmup st h1
  obtain ⟨hg2, hl2⟩ := warmup_tts_gate env.ttsWarmup st h2
  rcases hw1 : warmup_stt env.sttWarmup st with ⟨st1, b1, tr1⟩
  rcases hw2 : warmup_tts env.ttsWarmup st with ⟨st2, b2, tr2⟩
  rw [hw1] at hg1 hl1
  rw [hw2] at hg2 hl2
  simp only at hg1 hg2 hl1 hl2
  subst hg1
  subst hg2
  constructor
  · simp only [transcribe_audio, hw1]
    rcases env.sttInference with ⟨k, ls⟩ | _ | _ <;> (try cases k) <;>
      · simp only
        rw [List.append_assoc]
        exact leakFree_append hl1
          (by simpa using leakFree_inv_trace "transcribe.wav" "stt_inference")
  · simp only [text_to_speech, hw2]
    rcases env.ttsInference with ⟨k, ls⟩ | _ | _ <;> (try cases k) <;>
      · simp only
        rw [List.append_assoc]
        exact leakFree_append hl2
          (by simpa using leakFree_pair_trace "tts_input.txt" "tts_output.wav" "tts_inference")

/-- Witness for C6 in the all-success world. -/
theorem no_temp_leak_witness :
    leakFree (transcribe_audio envAllOk initState).2.2 ∧
    leakFree (text_to_speech envAllOk initState "Hi").2.2 :=
  no_temp_leak_without_warmup_failure envAllOk initState "Hi" (Or.inr (by decide))
    (Or.inr (by decide))

/-! ## Dispatcher output discipline (C3, C8, C9, C10) -/

/-- C3 counterexample: a `transcribe` command without `audio_data` makes
`process_command` return Python's `None`, so the loop prints the literal line
`None`, which is not a JSON object. -/
theorem transcribe_missing_audio_prints_none_cex :
    (service_step envAllOk initState
        (.cmd (.obj (some "transcribe") none none none))).output
      = some OutLine.noneLine := by rfl

/-- C3 (corrected): every non-`quit` input line produces exactly one response
line; that line is a JSON object of the matching type for a recognized
command, or a `type:error` object for a decoding or schema failure — except
for a `transcribe` command with missing or empty `audio_data`, where the
handler returns no envelope and the printed line is the literal `None`. -/
theorem dispatcher_one_line_per_command (env : Env) (st : ServiceState) (dec : Decoded) :
    ∃ out, (service_step env st (.cmd dec)).output = some out ∧
      ((isTranscribeNoAudio dec = true ∧ out = OutLine.noneLine) ∨
       (isTranscribeNoAudio dec = false ∧
        ∃ r, out = OutLine.jsonLine r ∧ respTypeMatches dec r = true)) := by
  rcases dec with _ | _ | ⟨typ, ad, sr, tx⟩
  · exact ⟨_, rfl, Or.inr ⟨rfl, _, rfl, rfl⟩⟩
  · exact ⟨_, rfl, Or.inr ⟨rfl, _, rfl, rfl⟩⟩
  · rcases typ with _ | t
    · exact ⟨_, rfl, Or.inr ⟨rfl, _, rfl, rfl⟩⟩
    · by_cases ht : t = "transcribe"
      · subst ht
        by_cases had : ad.getD "" = ""
        · refine ⟨OutLine.noneLine, ?_, Or.inl ⟨?_, rfl⟩⟩
          · simp [service_step, process_command, had]
          · simp [isTranscribeNoAudio, had]
        · have hne : isTranscribeNoAudio (.obj (some "transcribe") ad sr tx) = false := by
            simp [isTranscribeNoAudio, had]
          rcases hb : b64decode (ad.getD "").data with _ | bytes
          · refine ⟨OutLine.jsonLine (.errorResp "Invalid base64-encoded string"), ?_,
              Or.inr ⟨hne, _, rfl, rfl⟩⟩
            simp [service_step, process_command, had, hb]
          · rcases hsm : bytesToInt16 bytes with _ | smp
            · refine ⟨OutLine.jsonLine
                  (.errorResp "buffer size must be a multiple of element size"), ?_,
                Or.inr ⟨hne, _, rfl, rfl⟩⟩
              simp [service_step, process_command, had, hb, hsm]
            · rcases hta : transcribe_audio env st with ⟨st1, r0, tr⟩
              refine ⟨OutLine.jsonLine (.transcription_result r0 r0.isSome), ?_,
                Or.inr ⟨hne, _, rfl, rfl⟩⟩
              simp [service_step, process_command, had, hb, hsm, hta]
      · by_cases ht2 : t = "tts"
        · subst ht2
          rcases hs : text_to_speech env st (tx.getD "") with ⟨st1, res, tr⟩
          refine ⟨OutLine.jsonLine (ttsEnvelope res), ?_,
            Or.inr ⟨by simp [isTranscribeNoAudio], _, rfl, by cases res <;> rfl⟩⟩
          simp [service_step, process_command, hs]
        · by_cases ht3 : t = "status"
          · subst ht3
            exact ⟨_, rfl, Or.inr ⟨rfl, _, rfl, rfl⟩⟩
          · refine ⟨OutLine.jsonLine (.errorResp ("Unknown command type: " ++ t)), ?_,
              Or.inr ⟨?_, _, rfl, ?_⟩⟩
            · simp [service_step, process_command, ht, ht2, ht3]
            · simp [isTranscribeNoAudio, ht]
            · simp [respTypeMatches, cmdKind, ht, ht2, ht3]

/-- A `text_to_speech` run either fails or returns exactly the samples read
from the output wav. -/
theorem tts_result_shape (env : Env) (st : ServiceState) (tx : String) :
    (text_to_speech env st tx).2.1 = none ∨
    (text_to_speech env st tx).2.1 = some env.ttsReadSamples := by
  rcases hw : warmup_tts env.ttsWarmup st with ⟨st1, b, tr⟩
  cases b
  · simp [text_to_speech, hw]
  · rcases hi : env.ttsInference with ⟨k, ls⟩ | _ | _ <;> (try cases k) <;>
      simp [text_to_speech, hw, hi]

/-- The base64 encoding of a sample buffer is empty exactly for the empty
buffer. -/
theorem b64_int16_len (s : List Int) :
    ((b64encode (int16ToBytes s)).length = 0) ↔ s = [] := by
  cases s with
  | nil => simp [int16ToBytes, b64encode]
  | cons hd tl =>
    simp only [int16ToBytes]
    rcases h : int16ToBytes tl with _ | ⟨c, cs⟩
    · simp [b64encode]
    · simp [b64encode]

/-- C8 counterexample: when the synthesis tool succeeds but its output file
holds zero samples, the response is `success:true` with EMPTY `audio_data` —
the claimed "non-empty base64 audio" does not hold. -/
theorem tts_empty_audio_success_cex :
    (process_command envEmptyAudio initState
        (.obj (some "tts") none none (some "Hello"))).2.1
      = some (.tts_result_ok "" 24000) := by rfl

/-- C8 (corrected): every `tts` command yields exactly one of two outcomes —
never neither, never both: `success:true` with `sample_rate` 24000 and
`audio_data` the base64 encoding of the samples read back (non-empty exactly
when at least one sample was produced), or `success:false` with the fixed
non-empty error string. -/
theorem tts_response_dichotomy (env : Env) (st : ServiceState) :
    ∃ r, (process_command env st (.obj (some "tts") none none (some "Hello"))).2.1
        = some r ∧
      (isTtsOkResp r && isTtsErrResp r) = false ∧
      (isTtsOkResp r || isTtsErrResp r) = true ∧
      ((r = .tts_result_ok (String.mk (b64encode (int16ToBytes env.ttsReadSamples))) 24000 ∧
        ((String.mk (b64encode (int16ToBytes env.ttsReadSamples))).length = 0
          ↔ env.ttsReadSamples = [])) ∨
       r = .tts_result_err "TTS generation failed") := by
  rcases hfull : text_to_speech env st "Hello" with ⟨st1, res, tr⟩
  have hsh := tts_result_shape env st "Hello"
  rw [hfull] at hsh
  simp only at hsh
  rcases hsh with h | h <;> subst h
  · exact ⟨.tts_result_err "TTS generation failed",
      by simp [process_command, hfull, ttsEnvelope], rfl, rfl, Or.inr rfl⟩
  · refine ⟨.tts_result_ok (String.mk (b64encode (int16ToBytes env.ttsReadSamples))) 24000,
      by simp [process_command, hfull, ttsEnvelope], rfl, rfl,
      Or.inl ⟨rfl, ?_⟩⟩
    exact b64_int16_len env.ttsReadSamples

/-- C9 (confirmed): an input line that is not valid JSON, decodes to a
non-object, or is an object with a missing or unrecognized `type` yields a
`type:error` response with a message, the loop keeps running and the state is
untouched — no such input terminates the worker. -/
theorem malformed_input_error_loop_continues (env : Env) (st : ServiceState)
    (ad : Option String) (sr : Option Int) (tx : Option String) (t : String)
    (h1 : t ≠ "transcribe") (h2 : t ≠ "tts") (h3 : t ≠ "status") :
    (service_step env st (.cmd .malformed)).output
      = some (.jsonLine (.errorResp "Expecting value")) ∧
    (service_step env st (.cmd .malformed)).keepRunning = true ∧
    (service_step env st (.cmd .nonObject)).output
      = some (.jsonLine (.errorResp "object has no attribute get")) ∧
    (service_step env st (.cmd .nonObject)).keepRunning = true ∧
    (service_step env st (.cmd (.obj none ad sr tx))).output
      = some (.jsonLine (.errorResp "Unknown command type: None")) ∧
    (service_step env st (.cmd (.obj none ad sr tx))).keepRunning = true ∧
    (service_step env st (.cmd (.obj (some t) ad sr tx))).output
      = some (.jsonLine (.errorResp ("Unknown command type: " ++ t))) ∧
    (service_step env st (.cmd (.obj (some t) ad sr tx))).keepRunning = true ∧
    (service_step env st (.cmd (.obj (some t) ad sr tx))).state = st := by
  refine ⟨rfl, rfl, rfl, rfl, rfl, rfl, ?_, ?_, ?_⟩ <;>
    simp [service_step, process_command, h1, h2, h3]

/-- Witness for C9 at a concrete unrecognized command type. -/
theorem malformed_input_witness :
    (service_step envAllOk initState
        (.cmd (.obj (some "frobnicate") none none none))).output
      = some (.jsonLine (.errorResp ("Unknown command type: " ++ "frobnicate"))) ∧
    (service_step envAllOk initState (.cmd .malformed)).keepRunning = true := by
  have h := malformed_input_error_loop_continues envAllOk initState none none none
    "frobnicate" (by decide) (by decide) (by decide)
  exact ⟨h.2.2.2.2.2.2.1, h.2.1⟩

/-- C10 (confirmed): a `tts` command without a `text` field is not rejected —
it behaves exactly like one carrying the empty string, and the handler path
is the normal `text_to_speech` call on `""`. -/
theorem tts_missing_text_empty_string (env : Env) (st : ServiceState)
    (ad : Option String) (sr : Option Int) :
    process_command env st (.obj (some "tts") ad sr none)
      = process_command env st (.obj (some "tts") ad sr (some "")) ∧
    process_command env st (.obj (some "tts") ad sr none)
      = (match text_to_speech env st "" with
         | (st1, res, tr) => (st1, some (ttsEnvelope res), tr)) := by
  constructor <;> rfl

end BaoAgent
